import Mathlib

/-!
Shallow embedding of `src/sysmodules/rosalina/source/gdb/watchpoints.c`
(Luma3DS GDB stub hardware-watchpoint allocator).

Machine integers (`u32`) are modelled as `Nat` with explicit `% 2^32`
where the C code can wrap (the `total` and `nbWatchpoints` counters and
the control-word encodings).  The hardware primitive
`svcSetHardwareBreakPoint` is external: each operation returns the list
of `(index, control, value)` register writes it performed, and
`GDB_AddWatchpoint` takes two booleans giving the outcome (`R_SUCCEEDED`)
of its first and second hardware call.  The recursive lock is external:
each operation reports how many times it acquired and released the lock.
-/

namespace Luma3DSWatchpoints

/-- `u32` modulus, `2 ^ 32`. -/
def U32 : Nat := 4294967296

/-- `-EINVAL` magnitude, from newlib `errno.h` (external header). -/
def EINVAL : Int := 22

/-- `-EBUSY` magnitude, from newlib `errno.h` (external header). -/
def EBUSY : Int := 16

/-- Modelled from the spec: the `WatchpointKind` enumeration is declared in
`gdb/watchpoints.h`, which is not under `src/`; the spec gives the closed set
`Disabled`, `Read`, `Write`, `ReadWrite` with `Disabled` the zero sentinel
for a free slot (the table is `memset` to 0 by reset). -/
inductive WatchpointKind where
  | WATCHPOINT_DISABLED
  | WATCHPOINT_READ
  | WATCHPOINT_WRITE
  | WATCHPOINT_READWRITE
deriving DecidableEq, Repr

/-- Modelled from the spec: numeric value of a `WatchpointKind`, as used by
the cast `(u32)kind` in the WCR encoding; `Disabled` is the zero sentinel and
the remaining kinds follow in declaration order. -/
def kindVal : WatchpointKind → Nat
  | .WATCHPOINT_DISABLED => 0
  | .WATCHPOINT_READ => 1
  | .WATCHPOINT_WRITE => 2
  | .WATCHPOINT_READWRITE => 3

/-- `struct Watchpoint` (watchpoints.c, lines 40-46). -/
structure Watchpoint where
  address : Nat
  size : Nat
  kind : WatchpointKind
  debug : Nat
deriving DecidableEq, Repr

/-- The all-zero `Watchpoint`, i.e. `memset(.., 0, sizeof(Watchpoint))`. -/
def Watchpoint.zero : Watchpoint :=
  ⟨0, 0, .WATCHPOINT_DISABLED, 0⟩

/-- `struct WatchpointManager` (watchpoints.c, lines 48-52): the 2-entry
array `watchpoints[2]` is modelled by the two fields `w0`, `w1`. -/
structure WatchpointManager where
  total : Nat
  w0 : Watchpoint
  w1 : Watchpoint
deriving DecidableEq, Repr

/-- `manager.watchpoints[i]` for `i < 2` (the source only indexes 0 and 1). -/
def WatchpointManager.watchpoints (m : WatchpointManager) (i : Nat) : Watchpoint :=
  if i = 0 then m.w0 else m.w1

/-- Store into `manager.watchpoints[i]`. -/
def WatchpointManager.setWatchpoint (m : WatchpointManager) (i : Nat)
    (w : Watchpoint) : WatchpointManager :=
  if i = 0 then { m with w0 := w } else { m with w1 := w }

/-- The zeroed manager produced by `memset(&manager, 0, sizeof(WatchpointManager))`. -/
def managerZero : WatchpointManager :=
  ⟨0, Watchpoint.zero, Watchpoint.zero⟩

/-- Modelled from the spec: the `GDBContext` debug-session object is declared
outside `src/`; per the spec it carries the context-ID handle `debug`, a fixed
2-entry watched-address cache `watchpoints[2]` (fields `watchpoint0`,
`watchpoint1` here) and the live count `nbWatchpoints`.  A store through an
index other than 0 or 1 is outside the 2-entry array; such stores are
recorded in `oobWrites` as `(index, value)` pairs. -/
structure GDBContext where
  debug : Nat
  watchpoint0 : Nat
  watchpoint1 : Nat
  nbWatchpoints : Nat
  oobWrites : List (Nat × Nat)
deriving DecidableEq, Repr

/-- `ctx->watchpoints[i] = v`, with out-of-range indices recorded. -/
def GDBContext.cacheWrite (ctx : GDBContext) (i v : Nat) : GDBContext :=
  if i = 0 then { ctx with watchpoint0 := v }
  else if i = 1 then { ctx with watchpoint1 := v }
  else { ctx with oobWrites := ctx.oobWrites ++ [(i, v)] }

/-- Result of one `GDB_AddWatchpoint` / `GDB_RemoveWatchpoint` call: the
manager and session states on return, the returned error code, the
`svcSetHardwareBreakPoint` calls issued as `(index, control, value)`
triples in order, and the number of lock acquisitions and releases. -/
structure CallResult where
  manager : WatchpointManager
  ctx : GDBContext
  ret : Int
  hwWrites : List (Nat × Nat × Nat)
  lockAcquired : Nat
  lockReleased : Nat
deriving DecidableEq, Repr

/-- Result of `GDB_ResetWatchpoints` (which touches no session). -/
structure ResetResult where
  manager : WatchpointManager
  hwWrites : List (Nat × Nat × Nat)
  lockAcquired : Nat
  lockReleased : Nat
deriving DecidableEq, Repr

/-- The slot-scan loop shared by `GDB_RemoveWatchpoint` (line 138) and
`GDB_GetWatchpointKind` (line 174):
`for(id = 0; id < 2 && wp[id].address != address && wp[id].debug != debug; id++);`
i.e. the scan stops at the first slot whose stored address equals the
requested address or whose stored owner equals the requesting handle,
and yields 2 when neither slot matches. -/
def findWatchpoint (m : WatchpointManager) (address debug : Nat) : Nat :=
  if m.w0.address = address ∨ m.w0.debug = debug then 0
  else if m.w1.address = address ∨ m.w1.debug = debug then 1
  else 2

/-- `GDB_GetWatchpointKind` (watchpoints.c, lines 171-177).  The source
function only reads `manager` and `ctx->debug`; its embedding is a pure
function returning the kind, which reflects that it performs no state
mutation, no hardware write and no lock operation. -/
def GDB_GetWatchpointKind (m : WatchpointManager) (ctx : GDBContext)
    (address : Nat) : WatchpointKind :=
  let id := findWatchpoint m address ctx.debug
  if id = 2 then .WATCHPOINT_DISABLED else (m.watchpoints id).kind

/-- The BCR control word built at lines 96-100: compare with context ID
(bit 21), linked with a WRP (bit 20), byte address select `+0..+3`
(`0xf << 5`), both privileged and user modes (`3 << 1`), enabled (bit 0). -/
def BCRword : Nat :=
  (1 <<< 21) ||| (1 <<< 20) ||| (0xf <<< 5) ||| (3 <<< 1) ||| 1

/-- The WCR control word built at lines 102-107: linked (bit 20), ID of the
linked BRP (`(4 + id) << 16`), byte address select (`selectMask << 5`),
kind (`(u32)kind << 3`), user mode only (`2 << 1`), enabled (bit 0);
truncated to `u32`. -/
def WCRword (id selectMask : Nat) (kind : WatchpointKind) : Nat :=
  ((1 <<< 20) ||| ((4 + id) <<< 16) ||| (selectMask <<< 5) |||
    (kindVal kind <<< 3) ||| (2 <<< 1) ||| 1) % U32

/-- The slot chosen at line 93: `manager.watchpoints[0].kind == WATCHPOINT_DISABLED ? 0 : 1`. -/
def addId (m : WatchpointManager) : Nat :=
  if m.w0.kind = .WATCHPOINT_DISABLED then 0 else 1

/-- `GDB_AddWatchpoint` (watchpoints.c, lines 77-131).  `hw1` and `hw2` are
the `R_SUCCEEDED` outcomes of the two `svcSetHardwareBreakPoint` calls
(the second call is only issued when the first succeeded, as in the source).
Note that the three early error returns (lines 84, 87, 91) return with the
lock still held (`lockReleased = 0`), exactly as the source does. -/
def GDB_AddWatchpoint (m : WatchpointManager) (ctx : GDBContext)
    (address size : Nat) (kind : WatchpointKind) (hw1 hw2 : Bool) : CallResult :=
  let offset := address % 4
  if m.total = 2 then
    ⟨m, ctx, -EBUSY, [], 1, 0⟩
  else if size = 0 ∨ (offset + size) % U32 > 4 ∨ kind = .WATCHPOINT_DISABLED then
    ⟨m, ctx, -EINVAL, [], 1, 0⟩
  else if GDB_GetWatchpointKind m ctx address ≠ .WATCHPOINT_DISABLED then
    ⟨m, ctx, -EINVAL, [], 1, 0⟩
  else
    let id := addId m
    let selectMask := (((1 <<< size) - 1) <<< offset) % U32
    let firstWrite : Nat × Nat × Nat :=
      (0x100 ||| id, WCRword id selectMask kind, address - offset)
    if hw1 then
      let writes := [firstWrite, (4 + id, BCRword, ctx.debug)]
      if hw2 then
        let wp : Watchpoint := ⟨address, size, kind, ctx.debug⟩
        let m' : WatchpointManager :=
          { m.setWatchpoint id wp with total := (m.total + 1) % U32 }
        let ctx' :=
          { ctx.cacheWrite ctx.nbWatchpoints address with
              nbWatchpoints := (ctx.nbWatchpoints + 1) % U32 }
        ⟨m', ctx', 0, writes, 1, 1⟩
      else
        ⟨m, ctx, -EINVAL, writes, 1, 1⟩
    else
      ⟨m, ctx, -EINVAL, [firstWrite], 1, 1⟩

/-- `GDB_RemoveWatchpoint` (watchpoints.c, lines 133-169).  The two
hardware-disable writes are fire-and-forget (results ignored). -/
def GDB_RemoveWatchpoint (m : WatchpointManager) (ctx : GDBContext)
    (address : Nat) (kind : WatchpointKind) : CallResult :=
  let id := findWatchpoint m address ctx.debug
  if id = 2 ∨ (kind ≠ .WATCHPOINT_DISABLED ∧ (m.watchpoints id).kind ≠ kind) then
    ⟨m, ctx, -EINVAL, [], 1, 1⟩
  else
    let writes := [(4 + id, 0, 0), (0x100 ||| id, 0, 0)]
    let m' : WatchpointManager :=
      { m.setWatchpoint id Watchpoint.zero with
          total := (m.total + (U32 - 1)) % U32 }
    let ctx' :=
      if ctx.watchpoint0 = address then
        { ctx with watchpoint0 := ctx.watchpoint1, watchpoint1 := 0,
                   nbWatchpoints := (ctx.nbWatchpoints + (U32 - 1)) % U32 }
      else if ctx.watchpoint1 = address then
        { ctx with watchpoint1 := 0,
                   nbWatchpoints := (ctx.nbWatchpoints + (U32 - 1)) % U32 }
      else ctx
    ⟨m', ctx', 0, writes, 1, 1⟩

/-- `GDB_ResetWatchpoints` (watchpoints.c, lines 56-75): disables the four
register pairs (BRP4, WRP0, BRP5, WRP1, in source order), zeroes the
manager, and releases the lock it took.  The one-time `lockInitialized`
lazy initialization affects no modelled state. -/
def GDB_ResetWatchpoints : ResetResult :=
  ⟨managerZero, [(4, 0, 0), (0x100, 0, 0), (5, 0, 0), (0x101, 0, 0)], 1, 1⟩

/-! ## Invariants and reachability -/

/-- Number of slots whose kind is not `Disabled` (occupied slots). -/
def occupiedCount (m : WatchpointManager) : Nat :=
  (if m.w0.kind = .WATCHPOINT_DISABLED then 0 else 1) +
    (if m.w1.kind = .WATCHPOINT_DISABLED then 0 else 1)

/-- The slot-table invariant: `total` counts the non-`Disabled` slots, and a
free slot (kind `Disabled`) is fully zeroed, as produced by `memset`. -/
@[reducible] def managerInv (m : WatchpointManager) : Prop :=
  m.total = occupiedCount m ∧
    (m.w0.kind = .WATCHPOINT_DISABLED → m.w0 = Watchpoint.zero) ∧
    (m.w1.kind = .WATCHPOINT_DISABLED → m.w1 = Watchpoint.zero)

theorem occupiedCount_le_two (m : WatchpointManager) : occupiedCount m ≤ 2 := by
  unfold occupiedCount
  split_ifs <;> omega

/-- The scan selects slot 0 as soon as slot 0 matches by address or owner. -/
theorem findWatchpoint_sel0 (m : WatchpointManager) (address debug : Nat)
    (h : m.w0.address = address ∨ m.w0.debug = debug) :
    findWatchpoint m address debug = 0 :=
  if_pos h

/-- The scan selects slot 1 when slot 0 does not match but slot 1 does. -/
theorem findWatchpoint_sel1 (m : WatchpointManager) (address debug : Nat)
    (h0 : ¬(m.w0.address = address ∨ m.w0.debug = debug))
    (h1 : m.w1.address = address ∨ m.w1.debug = debug) :
    findWatchpoint m address debug = 1 := by
  unfold findWatchpoint
  rw [if_neg h0, if_pos h1]

/-- The scan yields 2 when neither slot matches by address or owner. -/
theorem findWatchpoint_sel2 (m : WatchpointManager) (address debug : Nat)
    (h0 : ¬(m.w0.address = address ∨ m.w0.debug = debug))
    (h1 : ¬(m.w1.address = address ∨ m.w1.debug = debug)) :
    findWatchpoint m address debug = 2 := by
  unfold findWatchpoint
  rw [if_neg h0, if_neg h1]

/-- `GDB_RemoveWatchpoint` on its failure branch: no slot selected, or the
requested kind is specific and differs from the stored kind. -/
theorem removeWatchpoint_eq_invalid (m : WatchpointManager) (ctx : GDBContext)
    (address : Nat) (kind : WatchpointKind)
    (h : findWatchpoint m address ctx.debug = 2 ∨
      (kind ≠ .WATCHPOINT_DISABLED ∧
        (m.watchpoints (findWatchpoint m address ctx.debug)).kind ≠ kind)) :
    GDB_RemoveWatchpoint m ctx address kind = ⟨m, ctx, -EINVAL, [], 1, 1⟩ := by
  simp only [GDB_RemoveWatchpoint]
  rw [if_pos h]

/-- `GDB_RemoveWatchpoint` on its success branch, with the selected slot id
left as the scan result. -/
theorem removeWatchpoint_eq_free (m : WatchpointManager) (ctx : GDBContext)
    (address : Nat) (kind : WatchpointKind)
    (h : ¬(findWatchpoint m address ctx.debug = 2 ∨
      (kind ≠ .WATCHPOINT_DISABLED ∧
        (m.watchpoints (findWatchpoint m address ctx.debug)).kind ≠ kind))) :
    GDB_RemoveWatchpoint m ctx address kind =
      ⟨{ m.setWatchpoint (findWatchpoint m address ctx.debug) Watchpoint.zero with
           total := (m.total + (U32 - 1)) % U32 },
        (if ctx.watchpoint0 = address then
          { ctx with watchpoint0 := ctx.watchpoint1, watchpoint1 := 0,
                     nbWatchpoints := (ctx.nbWatchpoints + (U32 - 1)) % U32 }
         else if ctx.watchpoint1 = address then
          { ctx with watchpoint1 := 0,
                     nbWatchpoints := (ctx.nbWatchpoints + (U32 - 1)) % U32 }
         else ctx),
        0,
        [(4 + findWatchpoint m address ctx.debug, 0, 0),
         (0x100 ||| findWatchpoint m address ctx.debug, 0, 0)], 1, 1⟩ := by
  simp only [GDB_RemoveWatchpoint]
  rw [if_neg h]

/-- Manager states reachable from the zeroed `Reset` state by `Add`, `Remove`
and `Reset` calls (with arbitrary session objects and hardware outcomes),
where every `Remove` call passes a nonzero address and comes from a session
with a nonzero context-ID handle. -/
inductive ReachableSafeRemove : WatchpointManager → Prop where
  | init : ReachableSafeRemove managerZero
  | add (m : WatchpointManager) (ctx : GDBContext) (address size : Nat)
      (kind : WatchpointKind) (hw1 hw2 : Bool) :
      ReachableSafeRemove m →
      ReachableSafeRemove (GDB_AddWatchpoint m ctx address size kind hw1 hw2).manager
  | remove (m : WatchpointManager) (ctx : GDBContext) (address : Nat)
      (kind : WatchpointKind) :
      ReachableSafeRemove m → address ≠ 0 → ctx.debug ≠ 0 →
      ReachableSafeRemove (GDB_RemoveWatchpoint m ctx address kind).manager
  | reset (m : WatchpointManager) :
      ReachableSafeRemove m → ReachableSafeRemove GDB_ResetWatchpoints.manager

theorem addWatchpoint_managerInv (m : WatchpointManager) (ctx : GDBContext)
    (address size : Nat) (kind : WatchpointKind) (hw1 hw2 : Bool)
    (h : managerInv m) :
    managerInv (GDB_AddWatchpoint m ctx address size kind hw1 hw2).manager := by
  simp only [GDB_AddWatchpoint]
  split_ifs with h1 h2 h3 h4 h5 <;> try exact h
  have hkind : kind ≠ .WATCHPOINT_DISABLED := fun hk => h2 (Or.inr (Or.inr hk))
  obtain ⟨ht, hz0, hz1⟩ := h
  by_cases h0 : m.w0.kind = .WATCHPOINT_DISABLED <;>
    by_cases h1k : m.w1.kind = .WATCHPOINT_DISABLED <;>
    simp_all [managerInv, occupiedCount, WatchpointManager.setWatchpoint, addId, U32]

theorem removeWatchpoint_managerInv (m : WatchpointManager) (ctx : GDBContext)
    (address : Nat) (kind : WatchpointKind)
    (h : managerInv m) (ha : address ≠ 0) (hd : ctx.debug ≠ 0) :
    managerInv (GDB_RemoveWatchpoint m ctx address kind).manager := by
  obtain ⟨ht, hz0, hz1⟩ := h
  by_cases m0 : m.w0.address = address ∨ m.w0.debug = ctx.debug
  · -- the scan selects slot 0; it must be occupied, since a free slot is
    -- zeroed and cannot match a nonzero address or handle
    have hocc0 : m.w0.kind ≠ .WATCHPOINT_DISABLED := by
      intro hk
      rcases m0 with hm | hm <;> rw [hz0 hk] at hm
      · exact ha hm.symm
      · exact hd hm.symm
    have hfw : findWatchpoint m address ctx.debug = 0 :=
      findWatchpoint_sel0 m address ctx.debug m0
    by_cases hks : kind ≠ .WATCHPOINT_DISABLED ∧ m.w0.kind ≠ kind
    · rw [removeWatchpoint_eq_invalid m ctx address kind (Or.inr (by rw [hfw]; exact hks))]
      exact ⟨ht, hz0, hz1⟩
    · have hcond : ¬(findWatchpoint m address ctx.debug = 2 ∨
          (kind ≠ .WATCHPOINT_DISABLED ∧
            (m.watchpoints (findWatchpoint m address ctx.debug)).kind ≠ kind)) := by
        rw [hfw]
        rintro (h02 | hk2)
        · exact absurd h02 (by decide)
        · exact hks hk2
      rw [removeWatchpoint_eq_free m ctx address kind hcond, hfw]
      show managerInv ⟨(m.total + (U32 - 1)) % U32, Watchpoint.zero, m.w1⟩
      have ht' : m.total = 1 + (if m.w1.kind = .WATCHPOINT_DISABLED then 0 else 1) := by
        rw [ht]
        unfold occupiedCount
        rw [if_neg hocc0]
      refine ⟨?_, fun _ => rfl, hz1⟩
      show (m.total + (U32 - 1)) % U32 =
        0 + (if m.w1.kind = .WATCHPOINT_DISABLED then 0 else 1)
      by_cases h1k : m.w1.kind = .WATCHPOINT_DISABLED
      · rw [if_pos h1k] at ht' ⊢
        rw [ht']
        simp only [U32]
      · rw [if_neg h1k] at ht' ⊢
        rw [ht']
        simp only [U32]
  · by_cases m1 : m.w1.address = address ∨ m.w1.debug = ctx.debug
    · have hocc1 : m.w1.kind ≠ .WATCHPOINT_DISABLED := by
        intro hk
        rcases m1 with hm | hm <;> rw [hz1 hk] at hm
        · exact ha hm.symm
        · exact hd hm.symm
      have hfw : findWatchpoint m address ctx.debug = 1 :=
        findWatchpoint_sel1 m address ctx.debug m0 m1
      by_cases hks : kind ≠ .WATCHPOINT_DISABLED ∧ m.w1.kind ≠ kind
      · rw [removeWatchpoint_eq_invalid m ctx address kind (Or.inr (by rw [hfw]; exact hks))]
        exact ⟨ht, hz0, hz1⟩
      · have hcond : ¬(findWatchpoint m address ctx.debug = 2 ∨
            (kind ≠ .WATCHPOINT_DISABLED ∧
              (m.watchpoints (findWatchpoint m address ctx.debug)).kind ≠ kind)) := by
          rw [hfw]
          rintro (h12 | hk2)
          · exact absurd h12 (by decide)
          · exact hks hk2
        rw [removeWatchpoint_eq_free m ctx address kind hcond, hfw]
        show managerInv ⟨(m.total + (U32 - 1)) % U32, m.w0, Watchpoint.zero⟩
        have ht' : m.total = (if m.w0.kind = .WATCHPOINT_DISABLED then 0 else 1) + 1 := by
          rw [ht]
          unfold occupiedCount
          rw [if_neg hocc1]
        refine ⟨?_, hz0, fun _ => rfl⟩
        show (m.total + (U32 - 1)) % U32 =
          (if m.w0.kind = .WATCHPOINT_DISABLED then 0 else 1) + 0
        by_cases h0k : m.w0.kind = .WATCHPOINT_DISABLED
        · rw [if_pos h0k] at ht' ⊢
          rw [ht']
          simp only [U32]
        · rw [if_neg h0k] at ht' ⊢
          rw [ht']
          simp only [U32]
    · rw [removeWatchpoint_eq_invalid m ctx address kind
        (Or.inl (findWatchpoint_sel2 m address ctx.debug m0 m1))]
      exact ⟨ht, hz0, hz1⟩

theorem reachableSafeRemove_managerInv (m : WatchpointManager)
    (h : ReachableSafeRemove m) : managerInv m := by
  induction h with
  | init => exact ⟨rfl, fun _ => rfl, fun _ => rfl⟩
  | add m ctx address size kind hw1 hw2 _ ih =>
      exact addWatchpoint_managerInv m ctx address size kind hw1 hw2 ih
  | remove m ctx address kind _ ha hd ih =>
      exact removeWatchpoint_managerInv m ctx address kind ih ha hd
  | reset m _ => exact ⟨rfl, fun _ => rfl, fun _ => rfl⟩

/-! ## Shared concrete states -/

/-- A session with context-ID handle 1 and an empty watched-address cache. -/
def ctxA : GDBContext := ⟨1, 0, 0, 0, []⟩

/-- A session with context-ID handle 2 and an empty watched-address cache. -/
def ctxB : GDBContext := ⟨2, 0, 0, 0, []⟩

/-- A session with context-ID handle 3 and an empty watched-address cache. -/
def ctxC : GDBContext := ⟨3, 0, 0, 0, []⟩

/-- Session A adds a watchpoint at `0x1000` from the zeroed state (succeeds,
fills slot 0, `total = 1`). -/
def addA : CallResult :=
  GDB_AddWatchpoint managerZero ctxA 0x1000 1 .WATCHPOINT_WRITE true true

/-- Session B adds a watchpoint at `0x2000` on top of `addA` (succeeds,
fills slot 1, `total = 2`). -/
def addB : CallResult :=
  GDB_AddWatchpoint addA.manager ctxB 0x2000 1 .WATCHPOINT_WRITE true true

/-! ## Claim C1 -/

/-- Claim C1, counterexample: the claim asserts that after any `Add`/`Remove`/
`Reset` sequence from the zeroed state, `total` equals the number of
non-`Disabled` slots and lies in 0..2, and that `Remove` never decrements
`total` when the slot it selected is free.  But one single `Remove` call at
address 0 from the zeroed `Reset` state matches free slot 0 (whose stored
address is 0), passes the wildcard-kind check, succeeds, and decrements the
`u32` counter `total` from 0 to `2^32 - 1`, while both slots stay `Disabled`. -/
theorem C1_counterexample :
    (GDB_RemoveWatchpoint managerZero ctxA 0 .WATCHPOINT_DISABLED).ret = 0 ∧
    (GDB_RemoveWatchpoint managerZero ctxA 0 .WATCHPOINT_DISABLED).manager.total =
      4294967295 ∧
    occupiedCount (GDB_RemoveWatchpoint managerZero ctxA 0 .WATCHPOINT_DISABLED).manager =
      0 := by
  decide

/-- Claim C1 (amended): for every sequence of `Add`, `Remove` and `Reset`
calls starting from the zeroed `Reset` state in which every `Remove` call
passes a nonzero address and comes from a session with a nonzero context-ID
handle (so the scan can never select a zeroed free slot), the manager's
`total` always equals the number of slots whose kind is not `Disabled`, and
`total ≤ 2`. -/
theorem C1_total_counts_occupied (m : WatchpointManager)
    (h : ReachableSafeRemove m) :
    m.total = occupiedCount m ∧ m.total ≤ 2 := by
  have hinv := reachableSafeRemove_managerInv m h
  exact ⟨hinv.1, hinv.1 ▸ occupiedCount_le_two m⟩

/-- Claim C1, witness: the invariant instantiated at the concrete state
reached by an `Add` followed by a matching (nonzero-address, nonzero-handle)
`Remove`. -/
theorem C1_total_counts_occupied_witness :
    (GDB_RemoveWatchpoint addA.manager addA.ctx 0x1000 .WATCHPOINT_WRITE).manager.total =
      occupiedCount
        (GDB_RemoveWatchpoint addA.manager addA.ctx 0x1000 .WATCHPOINT_WRITE).manager ∧
    (GDB_RemoveWatchpoint addA.manager addA.ctx 0x1000 .WATCHPOINT_WRITE).manager.total ≤
      2 :=
  C1_total_counts_occupied _
    (ReachableSafeRemove.remove addA.manager addA.ctx 0x1000 .WATCHPOINT_WRITE
      (ReachableSafeRemove.add managerZero ctxA 0x1000 1 .WATCHPOINT_WRITE true true
        ReachableSafeRemove.init)
      (by decide) (by decide))

/-! ## Claim C2 -/

/-- Claim C2, counterexample: the claim asserts that removing a never-added,
still-unwatched address fails with `InvalidArgument` and changes nothing.
In the reachable state where session A owns the only watchpoint (at
`0x1000`), `Remove(sessionA, 0x2000, Disabled)` matches slot 0 by owner even
though no slot stores address `0x2000`, succeeds (returns 0), and frees the
slot. -/
theorem C2_counterexample :
    addA.ret = 0 ∧
    addA.manager.w0.address ≠ 0x2000 ∧
    addA.manager.w1.address ≠ 0x2000 ∧
    (GDB_RemoveWatchpoint addA.manager addA.ctx 0x2000 .WATCHPOINT_DISABLED).ret = 0 ∧
    (GDB_RemoveWatchpoint addA.manager addA.ctx 0x2000 .WATCHPOINT_DISABLED).manager ≠
      addA.manager := by
  decide

/-- Claim C2 (amended): the premise `no occupied slot stores address A` must
be strengthened to `no slot stores address A and no slot stores the session's
context-ID handle as owner` (free slots store address 0 and owner 0).  Under
that premise, `Remove(session, A, Disabled)` returns `-EINVAL` and leaves the
slot table, `total`, the hardware registers (no writes issued) and the
session's watched-address cache unchanged, for every manager state. -/
theorem C2_remove_unmatched_invalid (m : WatchpointManager) (ctx : GDBContext)
    (address : Nat)
    (h0a : m.w0.address ≠ address) (h0d : m.w0.debug ≠ ctx.debug)
    (h1a : m.w1.address ≠ address) (h1d : m.w1.debug ≠ ctx.debug) :
    GDB_RemoveWatchpoint m ctx address .WATCHPOINT_DISABLED =
      ⟨m, ctx, -EINVAL, [], 1, 1⟩ := by
  simp [GDB_RemoveWatchpoint, findWatchpoint, h0a, h0d, h1a, h1d]

/-- Claim C2, witness: the amended theorem applied at the state reached by
`addA` with the unwatched address `0x2000` and a session whose handle owns
no slot. -/
theorem C2_remove_unmatched_invalid_witness :
    GDB_RemoveWatchpoint addA.manager ctxB 0x2000 .WATCHPOINT_DISABLED =
      ⟨addA.manager, ctxB, -EINVAL, [], 1, 1⟩ :=
  C2_remove_unmatched_invalid addA.manager ctxB 0x2000
    (by decide) (by decide) (by decide) (by decide)

/-! ## Claim C3 -/

/-- Claim C3: on a partial hardware failure (watchpoint-pair write succeeds,
breakpoint-pair write fails) the manager indeed records nothing — the slot
table, `total` and the session cache are unchanged — but, contrary to the
claim and the spec's rollback contract, the code never writes the disabled
`(0,0)` encoding back to the watchpoint-pair register: the hardware trace is
exactly the two programming writes and contains no `(0x100 | id, 0, 0)`
entry. -/
theorem C3_no_rollback_write :
    (GDB_AddWatchpoint managerZero ctxA 0x1000 1 .WATCHPOINT_WRITE true false).ret =
      -EINVAL ∧
    (GDB_AddWatchpoint managerZero ctxA 0x1000 1 .WATCHPOINT_WRITE true false).manager =
      managerZero ∧
    (GDB_AddWatchpoint managerZero ctxA 0x1000 1 .WATCHPOINT_WRITE true false).ctx =
      ctxA ∧
    (GDB_AddWatchpoint managerZero ctxA 0x1000 1 .WATCHPOINT_WRITE true false).hwWrites =
      [(0x100, WCRword 0 1 .WATCHPOINT_WRITE, 0x1000), (4, BCRword, 1)] ∧
    (0x100, 0, 0) ∉
      (GDB_AddWatchpoint managerZero ctxA 0x1000 1 .WATCHPOINT_WRITE true false).hwWrites := by
  decide

/-! ## Claim C4 -/

/-- Claim C4: the claim asserts every `Add`/`Remove`/`Reset` call releases
the recursive lock on every return path.  In the reachable state with both
slots occupied (`total = 2`, built by two successful `Add`s), a further
`Add` returns `-EBUSY` having acquired the lock once and released it zero
times — the early returns at lines 84, 87 and 91 of `GDB_AddWatchpoint`
leak the lock. -/
theorem C4_lock_not_released :
    addB.manager.total = 2 ∧
    (GDB_AddWatchpoint addB.manager ctxC 0x3000 1 .WATCHPOINT_WRITE true true).ret =
      -EBUSY ∧
    (GDB_AddWatchpoint addB.manager ctxC 0x3000 1 .WATCHPOINT_WRITE true true).lockAcquired =
      1 ∧
    (GDB_AddWatchpoint addB.manager ctxC 0x3000 1 .WATCHPOINT_WRITE true true).lockReleased =
      0 := by
  decide

/-! ## Claim C5 -/

/-- Step 1 of the C5 trace: session A adds a watchpoint at `0x1000`. -/
def c5s1 : CallResult :=
  GDB_AddWatchpoint managerZero ctxA 0x1000 1 .WATCHPOINT_WRITE true true

/-- Step 2: session A removes the unrelated address `0x2000`; the scan
matches session A's slot by owner and frees it, but the cache entry for
`0x1000` is not removed, so `nbWatchpoints` stays 1 with no live slot. -/
def c5s2 : CallResult :=
  GDB_RemoveWatchpoint c5s1.manager c5s1.ctx 0x2000 .WATCHPOINT_DISABLED

/-- Step 3: session A adds a watchpoint at `0x3000`; the cache append lands
at index 1 and `nbWatchpoints` becomes 2. -/
def c5s3 : CallResult :=
  GDB_AddWatchpoint c5s2.manager c5s2.ctx 0x3000 1 .WATCHPOINT_WRITE true true

/-- Step 4: session A removes the unrelated address `0x4000`; again the slot
is freed by owner match while the cache keeps both entries, so
`nbWatchpoints` stays 2 with no live slot. -/
def c5s4 : CallResult :=
  GDB_RemoveWatchpoint c5s3.manager c5s3.ctx 0x4000 .WATCHPOINT_DISABLED

/-- Step 5: session A adds a watchpoint at `0x5000`; the cache append
executes with `nbWatchpoints = 2`. -/
def c5s5 : CallResult :=
  GDB_AddWatchpoint c5s4.manager c5s4.ctx 0x5000 1 .WATCHPOINT_WRITE true true

/-- Claim C5: the claim asserts that `nbWatchpoints ≤ 2` in every reachable
state and that `Add`'s cache append always runs with `nbWatchpoints < 2`.
The five-call sequence `c5s1`..`c5s5` (a single session, starting from the
zeroed state) reaches a state with `nbWatchpoints = 2` in which a further
`Add` succeeds: its append writes `ctx->watchpoints[2]`, outside the
session's 2-entry cache, and `nbWatchpoints` becomes 3. -/
theorem C5_cache_append_out_of_bounds :
    c5s4.ctx.nbWatchpoints = 2 ∧
    c5s5.ret = 0 ∧
    c5s5.ctx.nbWatchpoints = 3 ∧
    c5s5.ctx.oobWrites = [(2, 0x5000)] := by
  decide

/-! ## Claim C6 -/

/-- Claim C6, counterexample: the claim asserts a session holding one live
watchpoint can add a second one whenever a slot is free and the request is
valid.  In the reachable state `addA.manager` session A owns exactly one
live watchpoint (at `0x1000`, slot 1 free) and requests the fresh, valid
address `0x2000` (kind `Write`, size 1), yet `Add` returns `-EINVAL`: the
duplicate-detection lookup matches session A's existing slot by owner. -/
theorem C6_counterexample :
    addA.ret = 0 ∧
    addA.manager.w0.debug = addA.ctx.debug ∧
    addA.manager.w0.kind ≠ .WATCHPOINT_DISABLED ∧
    addA.manager.w1.kind = .WATCHPOINT_DISABLED ∧
    addA.manager.w0.address ≠ 0x2000 ∧
    addA.manager.w1.address ≠ 0x2000 ∧
    (GDB_AddWatchpoint addA.manager addA.ctx 0x2000 1 .WATCHPOINT_WRITE true true).ret =
      -EINVAL := by
  decide

/-- Claim C6 (amended): in every state satisfying the slot-table invariant in
which a session with nonzero handle owns exactly one live watchpoint and the
other slot is free, a request for a fresh nonzero address that passes the
claim's validation (kind not `Disabled`, nonzero size, region inside one
aligned word, address stored in no slot) is nevertheless rejected with
`-EINVAL`, the manager, session and hardware untouched: duplicate detection
matches the session's existing slot by owner, so a session cannot acquire a
second live watchpoint through `Add`. -/
theorem C6_second_add_rejected (m : WatchpointManager) (ctx : GDBContext)
    (address size : Nat) (kind : WatchpointKind) (hw1 hw2 : Bool)
    (hinv : managerInv m)
    (hown :
      (m.w0.debug = ctx.debug ∧ m.w0.kind ≠ .WATCHPOINT_DISABLED ∧
        m.w1.kind = .WATCHPOINT_DISABLED) ∨
      (m.w1.debug = ctx.debug ∧ m.w1.kind ≠ .WATCHPOINT_DISABLED ∧
        m.w0.kind = .WATCHPOINT_DISABLED))
    (hd : ctx.debug ≠ 0) (ha : address ≠ 0)
    (hsize : size ≠ 0) (hfit : address % 4 + size ≤ 4)
    (hkind : kind ≠ .WATCHPOINT_DISABLED)
    (hdup0 : m.w0.address ≠ address) (hdup1 : m.w1.address ≠ address) :
    GDB_AddWatchpoint m ctx address size kind hw1 hw2 =
      ⟨m, ctx, -EINVAL, [], 1, 0⟩ := by
  obtain ⟨ht, hz0, hz1⟩ := hinv
  have htot : m.total ≠ 2 := by
    rcases hown with ⟨_, ho, hf⟩ | ⟨_, ho, hf⟩ <;>
      simp_all [occupiedCount]
  have hvalid : ¬(size = 0 ∨ (address % 4 + size) % U32 > 4 ∨
      kind = .WATCHPOINT_DISABLED) := by
    push_neg
    refine ⟨hsize, ?_, hkind⟩
    have : (address % 4 + size) % U32 = address % 4 + size :=
      Nat.mod_eq_of_lt (by simp only [U32]; omega)
    omega
  have hlook : GDB_GetWatchpointKind m ctx address ≠ .WATCHPOINT_DISABLED := by
    rcases hown with ⟨he, ho, hf⟩ | ⟨he, ho, hf⟩
    · simp [GDB_GetWatchpointKind, findWatchpoint, WatchpointManager.watchpoints,
        hdup0, he, ho]
    · have h0z := hz0 hf
      simp [GDB_GetWatchpointKind, findWatchpoint, WatchpointManager.watchpoints,
        hdup0, hdup1, h0z, Watchpoint.zero, Ne.symm ha, Ne.symm hd, he, ho]
  simp [GDB_AddWatchpoint, htot, hvalid, hlook]

/-- Claim C6, witness: the amended theorem applied at a concrete
invariant-satisfying state where session 7 owns slot 0 (address `0x1000`)
and requests the fresh address `0x2000`. -/
theorem C6_second_add_rejected_witness :
    GDB_AddWatchpoint ⟨1, ⟨0x1000, 1, .WATCHPOINT_WRITE, 7⟩, Watchpoint.zero⟩
        ⟨7, 0x1000, 0, 1, []⟩ 0x2000 1 .WATCHPOINT_WRITE true true =
      ⟨⟨1, ⟨0x1000, 1, .WATCHPOINT_WRITE, 7⟩, Watchpoint.zero⟩,
        ⟨7, 0x1000, 0, 1, []⟩, -EINVAL, [], 1, 0⟩ :=
  C6_second_add_rejected _ _ 0x2000 1 .WATCHPOINT_WRITE true true
    (by decide) (Or.inl (by decide)) (by decide) (by decide) (by decide)
    (by decide) (by decide) (by decide) (by decide)

/-! ## Claim C7 -/

/-- The lookup rule in the spec's words: the kind stored in the
lowest-indexed slot whose stored address equals the requested address or
whose stored owner equals the session's context-ID handle, `Disabled` when
neither slot matches either criterion. -/
def getWatchpointKindSpec (m : WatchpointManager) (ctx : GDBContext)
    (address : Nat) : WatchpointKind :=
  match [m.w0, m.w1].find? (fun w => w.address == address || w.debug == ctx.debug) with
  | some w => w.kind
  | none => .WATCHPOINT_DISABLED

/-- Claim C7: `GDB_GetWatchpointKind` returns the kind stored in the
lowest-indexed slot whose address matches the requested address or whose
owner matches the session's context-ID handle, and `Disabled` when neither
slot matches either criterion.  Its embedding is a pure function of the
manager and session (the source performs no writes, no hardware access and
no lock operation), so the call modifies no state. -/
theorem C7_getKind_first_match (m : WatchpointManager) (ctx : GDBContext)
    (address : Nat) :
    GDB_GetWatchpointKind m ctx address = getWatchpointKindSpec m ctx address := by
  unfold GDB_GetWatchpointKind getWatchpointKindSpec
  by_cases m0 : m.w0.address = address ∨ m.w0.debug = ctx.debug
  · have hb : (m.w0.address == address || m.w0.debug == ctx.debug) = true := by
      rcases m0 with hm | hm <;> simp [hm]
    rw [findWatchpoint_sel0 m address ctx.debug m0]
    simp only [List.find?, hb]
    simp [WatchpointManager.watchpoints]
  · have hb : (m.w0.address == address || m.w0.debug == ctx.debug) = false := by
      push_neg at m0
      simp [m0.1, m0.2]
    by_cases m1 : m.w1.address = address ∨ m.w1.debug = ctx.debug
    · have hb1 : (m.w1.address == address || m.w1.debug == ctx.debug) = true := by
        rcases m1 with hm | hm <;> simp [hm]
      rw [findWatchpoint_sel1 m address ctx.debug m0 m1]
      simp only [List.find?, hb, hb1]
      simp [WatchpointManager.watchpoints]
    · have hb1 : (m.w1.address == address || m.w1.debug == ctx.debug) = false := by
        push_neg at m1
        simp [m1.1, m1.2]
      rw [findWatchpoint_sel2 m address ctx.debug m0 m1]
      simp only [List.find?, hb, hb1]
      simp [WatchpointManager.watchpoints]

/-! ## Claim C8 -/

/-- Claim C8, counterexample: the claim asserts the capacity check comes
after argument validation, so an invalid request against a full table should
fail with `InvalidArgument`.  In the reachable state with both slots
occupied, `Add` with the invalid size 0 returns `-EBUSY`
(`ResourceExhausted`), not `-EINVAL`. -/
theorem C8_counterexample :
    addB.manager.total = 2 ∧
    (GDB_AddWatchpoint addB.manager ctxC 0x3000 0 .WATCHPOINT_WRITE true true).ret =
      -EBUSY ∧
    (GDB_AddWatchpoint addB.manager ctxC 0x3000 0 .WATCHPOINT_WRITE true true).ret ≠
      -EINVAL := by
  decide

/-- Claim C8 (amended): `GDB_AddWatchpoint` checks capacity first: whenever
`total = 2`, it returns `-EBUSY` unchanged-state for every argument list,
valid or not; argument validity and duplicate detection are only examined
when `total ≠ 2`. -/
theorem C8_capacity_checked_first (m : WatchpointManager) (ctx : GDBContext)
    (address size : Nat) (kind : WatchpointKind) (hw1 hw2 : Bool)
    (h : m.total = 2) :
    GDB_AddWatchpoint m ctx address size kind hw1 hw2 =
      ⟨m, ctx, -EBUSY, [], 1, 0⟩ := by
  simp [GDB_AddWatchpoint, h]

/-- Claim C8, witness: the amended theorem applied at the full reachable
state `addB.manager` with an invalid (size 0) request. -/
theorem C8_capacity_checked_first_witness :
    GDB_AddWatchpoint addB.manager ctxC 0x3000 0 .WATCHPOINT_WRITE true true =
      ⟨addB.manager, ctxC, -EBUSY, [], 1, 0⟩ :=
  C8_capacity_checked_first addB.manager ctxC 0x3000 0 .WATCHPOINT_WRITE true true
    (by decide)

/-! ## Claim C9 -/

/-- Claim C9: every successful `Add` issues exactly two hardware writes in
order: first the watchpoint pair `0x100 | id` with the `WCRword` control
word — linked flag (bit 20), linked breakpoint-pair index `4 + id`
(bits 16..19), byte-select mask `((1 << size) - 1) << offset` (bits 5..8),
the kind field (bits 3..4), user-mode-only access (`2 << 1`), enabled
(bit 0) — and the aligned base address `address & ~3` as compare value;
then the breakpoint pair `4 + id` with the `BCRword` control word —
context-ID-compare flag (bit 21), linked flag (bit 20), byte-select `0xF`,
both privileged and user modes (`3 << 1`), enabled (bit 0) — and the
session's context-ID handle as compare value. -/
theorem C9_success_hw_writes (m : WatchpointManager) (ctx : GDBContext)
    (address size : Nat) (kind : WatchpointKind) (hw1 hw2 : Bool)
    (h : (GDB_AddWatchpoint m ctx address size kind hw1 hw2).ret = 0) :
    (GDB_AddWatchpoint m ctx address size kind hw1 hw2).hwWrites =
      [(0x100 ||| addId m,
        WCRword (addId m) ((((1 <<< size) - 1) <<< (address % 4)) % U32) kind,
        address - address % 4),
       (4 + addId m, BCRword, ctx.debug)] := by
  simp only [GDB_AddWatchpoint] at h ⊢
  split_ifs at h ⊢ <;> simp_all [EBUSY, EINVAL]

/-- Claim C9, witness: the two writes of the successful `Add` that builds
`addA`, with the slot id, control words and compare values fully evaluated. -/
theorem C9_success_hw_writes_witness :
    addA.hwWrites =
      [(0x100 ||| addId managerZero,
        WCRword (addId managerZero) ((((1 <<< 1) - 1) <<< (0x1000 % 4)) % U32)
          .WATCHPOINT_WRITE,
        0x1000 - 0x1000 % 4),
       (4 + addId managerZero, BCRword, ctxA.debug)] :=
  C9_success_hw_writes managerZero ctxA 0x1000 1 .WATCHPOINT_WRITE true true
    (by decide)

/-! ## Claim C10 -/

/-- A state with both slots occupied but `total = 1`: the claim quantifies
over every manager state, including inconsistent ones like this. -/
def c10m : WatchpointManager :=
  ⟨1, ⟨0x1000, 1, .WATCHPOINT_WRITE, 7⟩, ⟨0x2000, 1, .WATCHPOINT_WRITE, 8⟩⟩

/-- A session with handle 5 and an empty cache, for the C10 counterexample. -/
def c10ctx : GDBContext := ⟨5, 0, 0, 0, []⟩

/-- `Add(c10ctx, 0x3000, 1, Write)` on `c10m`: slot 0 is occupied, so the
allocator targets slot 1 and overwrites its occupant. -/
def c10r1 : CallResult :=
  GDB_AddWatchpoint c10m c10ctx 0x3000 1 .WATCHPOINT_WRITE true true

/-- The immediately following `Remove(c10ctx, 0x3000, Write)`. -/
def c10r2 : CallResult :=
  GDB_RemoveWatchpoint c10r1.manager c10r1.ctx 0x3000 .WATCHPOINT_WRITE

/-- Claim C10, counterexample: the claim quantifies over every manager state.
On `c10m` (both slots occupied, `total = 1`), `Add(s, 0x3000, 1, Write)`
succeeds by overwriting occupied slot 1, and the following
`Remove(s, 0x3000, Write)` succeeds and zeroes that slot — so the manager is
not returned to its pre-`Add` state (slot 1's original occupant is lost). -/
theorem C10_counterexample :
    c10r1.ret = 0 ∧ c10r2.ret = 0 ∧ c10r2.manager ≠ c10m := by
  decide

/-- The commit branch of `GDB_AddWatchpoint` for a valid
`(address, 1, Write)` request with both hardware writes succeeding. -/
theorem addWatchpoint_write_commit (m : WatchpointManager) (ctx : GDBContext)
    (address : Nat) (htot : m.total ≠ 2)
    (hdup : GDB_GetWatchpointKind m ctx address = .WATCHPOINT_DISABLED) :
    GDB_AddWatchpoint m ctx address 1 .WATCHPOINT_WRITE true true =
      ⟨{ m.setWatchpoint (addId m) ⟨address, 1, .WATCHPOINT_WRITE, ctx.debug⟩ with
           total := (m.total + 1) % U32 },
        { ctx.cacheWrite ctx.nbWatchpoints address with
           nbWatchpoints := (ctx.nbWatchpoints + 1) % U32 },
        0,
        [(0x100 ||| addId m,
          WCRword (addId m) ((((1 <<< 1) - 1) <<< (address % 4)) % U32)
            .WATCHPOINT_WRITE,
          address - address % 4),
         (4 + addId m, BCRword, ctx.debug)],
        1, 1⟩ := by
  have hvalid : ¬((1 : Nat) = 0 ∨ (address % 4 + 1) % U32 > 4 ∨
      (WatchpointKind.WATCHPOINT_WRITE = .WATCHPOINT_DISABLED)) := by
    push_neg
    refine ⟨one_ne_zero, ?_, by decide⟩
    have h4 : address % 4 < 4 := Nat.mod_lt _ (by norm_num)
    have hm : (address % 4 + 1) % U32 = address % 4 + 1 :=
      Nat.mod_eq_of_lt (by simp only [U32]; omega)
    omega
  simp only [GDB_AddWatchpoint]
  rw [if_neg htot, if_neg hvalid, if_neg (fun h => h hdup)]
  rfl

/-- The commit branch when slot 0 is free: the watchpoint lands in slot 0. -/
theorem addWatchpoint_write_commit0 (m : WatchpointManager) (ctx : GDBContext)
    (address : Nat) (htot : m.total ≠ 2)
    (hdup : GDB_GetWatchpointKind m ctx address = .WATCHPOINT_DISABLED)
    (h0 : m.w0.kind = .WATCHPOINT_DISABLED) :
    GDB_AddWatchpoint m ctx address 1 .WATCHPOINT_WRITE true true =
      ⟨⟨(m.total + 1) % U32, ⟨address, 1, .WATCHPOINT_WRITE, ctx.debug⟩, m.w1⟩,
        { ctx.cacheWrite ctx.nbWatchpoints address with
           nbWatchpoints := (ctx.nbWatchpoints + 1) % U32 },
        0,
        [(0x100, WCRword 0 ((((1 <<< 1) - 1) <<< (address % 4)) % U32)
            .WATCHPOINT_WRITE, address - address % 4),
         (4, BCRword, ctx.debug)],
        1, 1⟩ := by
  rw [addWatchpoint_write_commit m ctx address htot hdup,
    show addId m = 0 from if_pos h0]
  rfl

/-- The commit branch when slot 0 is occupied: the watchpoint lands in
slot 1 (overwriting whatever is there). -/
theorem addWatchpoint_write_commit1 (m : WatchpointManager) (ctx : GDBContext)
    (address : Nat) (htot : m.total ≠ 2)
    (hdup : GDB_GetWatchpointKind m ctx address = .WATCHPOINT_DISABLED)
    (h0 : m.w0.kind ≠ .WATCHPOINT_DISABLED) :
    GDB_AddWatchpoint m ctx address 1 .WATCHPOINT_WRITE true true =
      ⟨⟨(m.total + 1) % U32, m.w0, ⟨address, 1, .WATCHPOINT_WRITE, ctx.debug⟩⟩,
        { ctx.cacheWrite ctx.nbWatchpoints address with
           nbWatchpoints := (ctx.nbWatchpoints + 1) % U32 },
        0,
        [(0x101, WCRword 1 ((((1 <<< 1) - 1) <<< (address % 4)) % U32)
            .WATCHPOINT_WRITE, address - address % 4),
         (5, BCRword, ctx.debug)],
        1, 1⟩ := by
  rw [addWatchpoint_write_commit m ctx address htot hdup,
    show addId m = 1 from if_neg h0]
  rfl

/-- Evaluation of `GDB_RemoveWatchpoint` when slot 0 holds a `Write`
watchpoint at the requested address. -/
theorem removeWatchpoint_hit0 (T : Nat) (wp w1 : Watchpoint) (c : GDBContext)
    (address : Nat) (haddr : wp.address = address)
    (hkind : wp.kind = .WATCHPOINT_WRITE) :
    GDB_RemoveWatchpoint ⟨T, wp, w1⟩ c address .WATCHPOINT_WRITE =
      ⟨⟨(T + (U32 - 1)) % U32, Watchpoint.zero, w1⟩,
        (if c.watchpoint0 = address then
          { c with watchpoint0 := c.watchpoint1, watchpoint1 := 0,
                   nbWatchpoints := (c.nbWatchpoints + (U32 - 1)) % U32 }
         else if c.watchpoint1 = address then
          { c with watchpoint1 := 0,
                   nbWatchpoints := (c.nbWatchpoints + (U32 - 1)) % U32 }
         else c),
        0, [(4, 0, 0), (0x100, 0, 0)], 1, 1⟩ := by
  have hfw : findWatchpoint ⟨T, wp, w1⟩ address c.debug = 0 :=
    findWatchpoint_sel0 _ _ _ (Or.inl haddr)
  have hcond : ¬(findWatchpoint ⟨T, wp, w1⟩ address c.debug = 2 ∨
      (WatchpointKind.WATCHPOINT_WRITE ≠ .WATCHPOINT_DISABLED ∧
        ((⟨T, wp, w1⟩ : WatchpointManager).watchpoints
          (findWatchpoint ⟨T, wp, w1⟩ address c.debug)).kind ≠
          .WATCHPOINT_WRITE)) := by
    rw [hfw]
    rintro (h2 | ⟨_, hk⟩)
    · exact absurd h2 (by decide)
    · exact hk hkind
  rw [removeWatchpoint_eq_free _ _ _ _ hcond, hfw]
  rfl

/-- Evaluation of `GDB_RemoveWatchpoint` when slot 0 matches neither the
address nor the handle and slot 1 holds a `Write` watchpoint at the
requested address. -/
theorem removeWatchpoint_hit1 (T : Nat) (w0 wp : Watchpoint) (c : GDBContext)
    (address : Nat)
    (hmiss : ¬(w0.address = address ∨ w0.debug = c.debug))
    (haddr : wp.address = address)
    (hkind : wp.kind = .WATCHPOINT_WRITE) :
    GDB_RemoveWatchpoint ⟨T, w0, wp⟩ c address .WATCHPOINT_WRITE =
      ⟨⟨(T + (U32 - 1)) % U32, w0, Watchpoint.zero⟩,
        (if c.watchpoint0 = address then
          { c with watchpoint0 := c.watchpoint1, watchpoint1 := 0,
                   nbWatchpoints := (c.nbWatchpoints + (U32 - 1)) % U32 }
         else if c.watchpoint1 = address then
          { c with watchpoint1 := 0,
                   nbWatchpoints := (c.nbWatchpoints + (U32 - 1)) % U32 }
         else c),
        0, [(5, 0, 0), (0x101, 0, 0)], 1, 1⟩ := by
  have hfw : findWatchpoint ⟨T, w0, wp⟩ address c.debug = 1 :=
    findWatchpoint_sel1 _ _ _ hmiss (Or.inl haddr)
  have hcond : ¬(findWatchpoint ⟨T, w0, wp⟩ address c.debug = 2 ∨
      (WatchpointKind.WATCHPOINT_WRITE ≠ .WATCHPOINT_DISABLED ∧
        ((⟨T, w0, wp⟩ : WatchpointManager).watchpoints
          (findWatchpoint ⟨T, w0, wp⟩ address c.debug)).kind ≠
          .WATCHPOINT_WRITE)) := by
    rw [hfw]
    rintro (h2 | ⟨_, hk⟩)
    · exact absurd h2 (by decide)
    · exact hk hkind
  rw [removeWatchpoint_eq_free _ _ _ _ hcond, hfw]
  rfl

/-- Claim C10 (amended): the round-trip property holds for every state
satisfying the slot-table invariant (`total` counts occupied slots, free
slots zeroed) and a consistent session cache (`nbWatchpoints < 2`, unused
cache entries zero, no out-of-bounds history): if `Add(s, A, 1, Write)`
succeeds (capacity available, duplicate lookup clear, both hardware writes
succeed), the immediately following `Remove(s, A, Write)` succeeds and
returns the manager, the slot table and the session's cache and live count
to their pre-`Add` values. -/
theorem C10_roundtrip (m : WatchpointManager) (ctx : GDBContext) (address : Nat)
    (hinv : managerInv m)
    (hnb : ctx.nbWatchpoints < 2)
    (hc0 : ctx.nbWatchpoints = 0 → ctx.watchpoint0 = 0)
    (hc1 : ctx.watchpoint1 = 0)
    (hoob : ctx.oobWrites = [])
    (htot : m.total ≠ 2)
    (hdup : GDB_GetWatchpointKind m ctx address = .WATCHPOINT_DISABLED) :
    (GDB_AddWatchpoint m ctx address 1 .WATCHPOINT_WRITE true true).ret = 0 ∧
    (GDB_RemoveWatchpoint
        (GDB_AddWatchpoint m ctx address 1 .WATCHPOINT_WRITE true true).manager
        (GDB_AddWatchpoint m ctx address 1 .WATCHPOINT_WRITE true true).ctx
        address .WATCHPOINT_WRITE).ret = 0 ∧
    (GDB_RemoveWatchpoint
        (GDB_AddWatchpoint m ctx address 1 .WATCHPOINT_WRITE true true).manager
        (GDB_AddWatchpoint m ctx address 1 .WATCHPOINT_WRITE true true).ctx
        address .WATCHPOINT_WRITE).manager = m ∧
    (GDB_RemoveWatchpoint
        (GDB_AddWatchpoint m ctx address 1 .WATCHPOINT_WRITE true true).manager
        (GDB_AddWatchpoint m ctx address 1 .WATCHPOINT_WRITE true true).ctx
        address .WATCHPOINT_WRITE).ctx = ctx := by
  obtain ⟨ht, hz0, hz1⟩ := hinv
  have hle := occupiedCount_le_two m
  have htle : m.total ≤ 2 := ht ▸ hle
  have htotal : ((m.total + 1) % U32 + (U32 - 1)) % U32 = m.total := by
    simp only [U32]
    omega
  obtain ⟨d, cw0, cw1, nb, oob⟩ := ctx
  simp only at hc0 hc1 hoob hnb
  subst hc1 hoob
  have hnb2 : nb = 0 ∨ nb = 1 := by omega
  have hacc : address = address := rfl
  by_cases h0 : m.w0.kind = .WATCHPOINT_DISABLED
  · -- slot 0 was free (and zeroed): the new watchpoint goes to slot 0 and
    -- the removal scan selects it again by address
    have hw0z := hz0 h0
    rw [addWatchpoint_write_commit0 m ⟨d, cw0, 0, nb, []⟩ address htot hdup h0]
    refine ⟨rfl, ?_⟩
    rcases hnb2 with rfl | rfl
    · have hcw0 : cw0 = 0 := hc0 rfl
      subst hcw0
      have hctx : ({ (⟨d, 0, 0, 0, []⟩ : GDBContext).cacheWrite
            (⟨d, 0, 0, 0, []⟩ : GDBContext).nbWatchpoints address with
            nbWatchpoints := ((⟨d, 0, 0, 0, []⟩ : GDBContext).nbWatchpoints + 1) % U32 } :
          GDBContext) = ⟨d, address, 0, 1, []⟩ := rfl
      rw [hctx, removeWatchpoint_hit0]
      · refine ⟨rfl, ?_, ?_⟩
        · rw [htotal, ← hw0z]
        · dsimp only
          rw [if_pos hacc]
          rfl
      · rfl
      · rfl
    · by_cases hA : cw0 = address
      · rw [hA]
        have hctx : ({ (⟨d, address, 0, 1, []⟩ : GDBContext).cacheWrite
              (⟨d, address, 0, 1, []⟩ : GDBContext).nbWatchpoints address with
              nbWatchpoints := ((⟨d, address, 0, 1, []⟩ : GDBContext).nbWatchpoints + 1) % U32 } :
            GDBContext) = ⟨d, address, address, 2, []⟩ := rfl
        rw [hctx, removeWatchpoint_hit0]
        · refine ⟨rfl, ?_, ?_⟩
          · rw [htotal, ← hw0z]
          · dsimp only
            rw [if_pos hacc]
            rfl
        · rfl
        · rfl
      · have hctx : ({ (⟨d, cw0, 0, 1, []⟩ : GDBContext).cacheWrite
              (⟨d, cw0, 0, 1, []⟩ : GDBContext).nbWatchpoints address with
              nbWatchpoints := ((⟨d, cw0, 0, 1, []⟩ : GDBContext).nbWatchpoints + 1) % U32 } :
            GDBContext) = ⟨d, cw0, address, 2, []⟩ := rfl
        rw [hctx, removeWatchpoint_hit0]
        · refine ⟨rfl, ?_, ?_⟩
          · rw [htotal, ← hw0z]
          · dsimp only
            rw [if_neg hA, if_pos hacc]
            rfl
        · rfl
        · rfl
  · -- slot 0 is occupied: the new watchpoint goes to slot 1, which must be
    -- free (total ≠ 2) and zeroed; the duplicate lookup having reported
    -- Disabled, slot 0 matches neither the address nor the handle, so the
    -- removal scan selects slot 1
    have h1 : m.w1.kind = .WATCHPOINT_DISABLED := by
      by_contra h1
      rw [ht] at htot
      unfold occupiedCount at htot
      rw [if_neg h0, if_neg h1] at htot
      exact htot rfl
    have hw1z := hz1 h1
    have hm0 : ¬(m.w0.address = address ∨ m.w0.debug = d) := by
      intro hm
      have hfw0 : findWatchpoint m address d = 0 := findWatchpoint_sel0 m address d hm
      simp only [GDB_GetWatchpointKind] at hdup
      rw [hfw0] at hdup
      exact h0 hdup
    rw [addWatchpoint_write_commit1 m ⟨d, cw0, 0, nb, []⟩ address htot hdup h0]
    refine ⟨rfl, ?_⟩
    rcases hnb2 with rfl | rfl
    · have hcw0 : cw0 = 0 := hc0 rfl
      subst hcw0
      have hctx : ({ (⟨d, 0, 0, 0, []⟩ : GDBContext).cacheWrite
            (⟨d, 0, 0, 0, []⟩ : GDBContext).nbWatchpoints address with
            nbWatchpoints := ((⟨d, 0, 0, 0, []⟩ : GDBContext).nbWatchpoints + 1) % U32 } :
          GDBContext) = ⟨d, address, 0, 1, []⟩ := rfl
      rw [hctx, removeWatchpoint_hit1]
      · refine ⟨rfl, ?_, ?_⟩
        · rw [htotal, ← hw1z]
        · dsimp only
          rw [if_pos hacc]
          rfl
      · exact hm0
      · rfl
      · rfl
    · by_cases hA : cw0 = address
      · rw [hA]
        have hctx : ({ (⟨d, address, 0, 1, []⟩ : GDBContext).cacheWrite
              (⟨d, address, 0, 1, []⟩ : GDBContext).nbWatchpoints address with
              nbWatchpoints := ((⟨d, address, 0, 1, []⟩ : GDBContext).nbWatchpoints + 1) % U32 } :
            GDBContext) = ⟨d, address, address, 2, []⟩ := rfl
        rw [hctx, removeWatchpoint_hit1]
        · refine ⟨rfl, ?_, ?_⟩
          · rw [htotal, ← hw1z]
          · dsimp only
            rw [if_pos hacc]
            rfl
        · exact hm0
        · rfl
        · rfl
      · have hctx : ({ (⟨d, cw0, 0, 1, []⟩ : GDBContext).cacheWrite
              (⟨d, cw0, 0, 1, []⟩ : GDBContext).nbWatchpoints address with
              nbWatchpoints := ((⟨d, cw0, 0, 1, []⟩ : GDBContext).nbWatchpoints + 1) % U32 } :
            GDBContext) = ⟨d, cw0, address, 2, []⟩ := rfl
        rw [hctx, removeWatchpoint_hit1]
        · refine ⟨rfl, ?_, ?_⟩
          · rw [htotal, ← hw1z]
          · dsimp only
            rw [if_neg hA, if_pos hacc]
            rfl
        · exact hm0
        · rfl
        · rfl

/-- Claim C10, witness: the round trip from the zeroed state with an empty
session cache at address `0x1000`. -/
theorem C10_roundtrip_witness :
    (GDB_AddWatchpoint managerZero ctxA 0x1000 1 .WATCHPOINT_WRITE true true).ret = 0 ∧
    (GDB_RemoveWatchpoint
        (GDB_AddWatchpoint managerZero ctxA 0x1000 1 .WATCHPOINT_WRITE true true).manager
        (GDB_AddWatchpoint managerZero ctxA 0x1000 1 .WATCHPOINT_WRITE true true).ctx
        0x1000 .WATCHPOINT_WRITE).ret = 0 ∧
    (GDB_RemoveWatchpoint
        (GDB_AddWatchpoint managerZero ctxA 0x1000 1 .WATCHPOINT_WRITE true true).manager
        (GDB_AddWatchpoint managerZero ctxA 0x1000 1 .WATCHPOINT_WRITE true true).ctx
        0x1000 .WATCHPOINT_WRITE).manager = managerZero ∧
    (GDB_RemoveWatchpoint
        (GDB_AddWatchpoint managerZero ctxA 0x1000 1 .WATCHPOINT_WRITE true true).manager
        (GDB_AddWatchpoint managerZero ctxA 0x1000 1 .WATCHPOINT_WRITE true true).ctx
        0x1000 .WATCHPOINT_WRITE).ctx = ctxA :=
  C10_roundtrip managerZero ctxA 0x1000 (by decide) (by decide) (by decide)
    (by decide) (by decide) (by decide) (by decide)

end Luma3DSWatchpoints
